import Mathlib

/-!
Verification of the FrostGuard gateway-provisioning script
(`src/scripts/provision_gateway.py`).

The script is shallowly embedded as pure Lean functions.  Remote
nondeterminism (whether each HTTP call succeeds, what error bodies and
generated credentials the backends return) is captured by an `Oracle`
record; the identity registry is an explicit piece of state
(`Option GatewayRecord`, absent or present); every remote call made by
a run is collected in a `Call` trace, and the persisted provisioning
log (`_summary`) is the `RunLog` structure.  Floats (antenna
coordinates) are carried as integers since the script performs no
arithmetic on them, and real timestamps are omitted from step records.
-/

namespace FrostGuard

/-- Radio-plane host: the `NAM1_HOST` constant of the source. -/
def NAM1_HOST : String := "nam1.cloud.thethings.network"

/-- Identity-plane base URL: the `IDENTITY_BASE_URL` constant of the source. -/
def IDENTITY_BASE_URL : String := "https://eu1.cloud.thethings.network"

/-- Radio-plane base URL: the `REGIONAL_BASE_URL` constant of the source. -/
def REGIONAL_BASE_URL : String := "https://nam1.cloud.thethings.network"

/-- Default frequency plan: the `DEFAULT_FREQUENCY_PLAN` constant of the source. -/
def DEFAULT_FREQUENCY_PLAN : String := "US_902_928_FSB_2"

/-- An identity-registry gateway record, with the fields of the registration
payload built in `GatewayProvisioner.provision` (plus the antenna location
that `update_gateway` can set afterwards). -/
structure GatewayRecord where
  gateway_id : String
  eui : String
  name : String
  frequency_plan_ids : List String
  gateway_server_address : String
  enforce_duty_cycle : Bool
  require_authenticated_connection : Bool
  status_public : Bool
  location_public : Bool
  antennas : Option (Int × Int × Int) := none
  deriving Repr, DecidableEq

/-- Payload of a `TTNClient.update_gateway` call: the source passes either
a dict with only `gateway_server_address` or a dict with only `antennas`. -/
inductive UpdatePayload where
  | serverAddress (addr : String)
  | antennas (latitude longitude altitude : Int)
  deriving Repr, DecidableEq

/-- One remote call issued through `TTNClient`. -/
inductive Call where
  | getGateway (gateway_id : String)
  | registerForUser (user_id : String) (gw : GatewayRecord)
  | registerForOrg (org_id : String) (gw : GatewayRecord)
  | updateGateway (gateway_id : String) (payload : UpdatePayload) (field_mask : List String)
  | createApiKey (gateway_id : String) (key_name : String) (rights : List String)
  | getConnectionStats (gateway_id : String)
  | deleteGateway (gateway_id : String)
  | purgeGateway (gateway_id : String)
  deriving Repr, DecidableEq

/-- True for the two registration calls (`register_gateway_for_user` /
`register_gateway_for_org`). -/
def Call.isRegister : Call → Bool
  | Call.registerForUser _ _ => true
  | Call.registerForOrg _ _ => true
  | _ => false

/-- True for any `update_gateway` call. -/
def Call.isUpdate : Call → Bool
  | Call.updateGateway _ _ _ => true
  | _ => false

/-- True for an `update_gateway` call whose field mask names exactly the
`gateway_server_address` field. -/
def Call.isServerAddressUpdate : Call → Bool
  | Call.updateGateway _ _ mask => mask == ["gateway_server_address"]
  | _ => false

/-- One entry of `GatewayProvisioner.results`, as appended by `_record`
(the wall-clock timestamp is not modelled). -/
structure StepResult where
  step : String
  success : Bool
  message : String
  data : Option GatewayRecord
  deriving Repr, DecidableEq

/-- The `credentials` dict accumulated by `provision`. -/
structure Credentials where
  lns_key : Option String := none
  lns_key_id : Option String := none
  lns_key_file : Option String := none
  cups_key : Option String := none
  cups_key_id : Option String := none
  cups_key_file : Option String := none
  deriving Repr, DecidableEq

/-- The empty `credentials` dict a run starts with. -/
def noCredentials : Credentials := {}

/-- The persisted provisioning log built by `GatewayProvisioner._summary`:
the steps plus, in the credentials section, only the key identifiers
(the secrets themselves are intentionally not part of the written log). -/
structure RunLog where
  gateway_id : String
  identity_server : String
  gateway_server : String
  gateway_server_address : String
  steps : List StepResult
  lns_key_id : Option String
  cups_key_id : Option String
  deriving Repr, DecidableEq

/-- Build the run log exactly as `_summary` does. -/
def mkLog (gateway_id : String) (steps : List StepResult) (credentials : Credentials) : RunLog :=
  ⟨gateway_id, IDENTITY_BASE_URL, REGIONAL_BASE_URL, NAM1_HOST, steps,
    credentials.lns_key_id, credentials.cups_key_id⟩

/-- Remote environment of one provisioning run: which calls succeed, the
error bodies, the generated credential secret/identifier pairs, and the
date string used in key names. -/
structure Oracle where
  getFault : Option (Nat × String)
  registerOk : Bool
  registerStatus : Nat
  registerErrBody : String
  updateOk : Bool
  updateErrBody : String
  locationOk : Bool
  locationErrBody : String
  lnsOk : Bool
  lnsKey : String
  lnsKeyId : String
  lnsErrBody : String
  cupsOk : Bool
  cupsKey : String
  cupsKeyId : String
  cupsErrBody : String
  statsOk : Bool
  statsStatus : Nat
  statsErrBody : String
  dbOk : Bool
  today : String
  deriving Repr, DecidableEq

/-- Arguments of `GatewayProvisioner.provision`, with the source defaults. -/
structure Args where
  gateway_id : String
  gateway_eui : String
  name : String
  owner_id : String
  owner_type : String := "user"
  frequency_plan : String := DEFAULT_FREQUENCY_PLAN
  latitude : Option Int := none
  longitude : Option Int := none
  altitude : Option Int := none
  location_public : Bool := false
  status_public : Bool := false
  enforce_duty_cycle : Bool := true
  require_authenticated : Bool := true
  generate_lns_key : Bool := true
  generate_cups_key : Bool := false
  output_dir : String := "."
  fg_org_id : Option String := none
  fg_site_id : Option String := none
  deriving Repr, DecidableEq

/-- Outcome of a `TTNClient.get_gateway` read. -/
structure GetResp where
  status : Nat
  ok : Bool
  body : Option GatewayRecord
  errBody : String
  deriving Repr, DecidableEq

/-- Semantics of `get_gateway`: a fault (auth/transport/remote error)
yields that error; otherwise the registry answers truthfully — the record
when present, a 404 when absent. -/
def get_gateway (fault : Option (Nat × String)) (registry : Option GatewayRecord) : GetResp :=
  match fault with
  | some (s, b) => ⟨s, false, none, b⟩
  | none =>
    match registry with
    | some g => ⟨200, true, some g, ""⟩
    | none => ⟨404, false, none, ""⟩

/-- Registry-side effect of an `update_gateway` call with the given payload:
field-mask semantics, only the named field changes, and only if the call
succeeded and the record exists. -/
def applyUpdate (ok : Bool) (payload : UpdatePayload) (registry : Option GatewayRecord) :
    Option GatewayRecord :=
  if ok then
    match registry, payload with
    | some g, UpdatePayload.serverAddress addr => some { g with gateway_server_address := addr }
    | some g, UpdatePayload.antennas la lo al => some { g with antennas := some (la, lo, al) }
    | none, _ => none
  else registry

/-- The registration payload (`gateway_payload` in Step 2 of the source):
the cross-cluster pointer is hard-wired to `NAM1_HOST`. -/
def gatewayPayload (a : Args) : GatewayRecord :=
  { gateway_id := a.gateway_id
    eui := a.gateway_eui
    name := a.name
    frequency_plan_ids := [a.frequency_plan]
    gateway_server_address := NAM1_HOST
    enforce_duty_cycle := a.enforce_duty_cycle
    require_authenticated_connection := a.require_authenticated
    status_public := a.status_public
    location_public := a.location_public
    antennas := none }

/-- The registration call: under an organization when `owner_type` is
`"org"`, under a user otherwise. -/
def registerCall (a : Args) : Call :=
  if a.owner_type = "org" then Call.registerForOrg a.owner_id (gatewayPayload a)
  else Call.registerForUser a.owner_id (gatewayPayload a)

/-- Step record for a successful Step-1 check of an existing gateway. -/
def checkStep (body : Option GatewayRecord) : StepResult :=
  ⟨"check_existing", true, "Gateway already registered", body⟩

/-- Step record for a successful registration. -/
def registerOkStep (a : Args) : StepResult :=
  ⟨"register", true, "Gateway registered on EU1 → gateway_server_address: " ++ NAM1_HOST,
    some (gatewayPayload a)⟩

/-- Step record for a failed registration. -/
def registerFailStep (o : Oracle) : StepResult :=
  ⟨"register", false,
    "Registration failed (" ++ toString o.registerStatus ++ "): " ++ o.registerErrBody, none⟩

/-- Step record for a successful server-address drift correction. -/
def updateOkStep : StepResult :=
  ⟨"update_server_address", true, "Updated gateway_server_address → " ++ NAM1_HOST, none⟩

/-- Step record for a failed server-address drift correction. -/
def updateFailStep (o : Oracle) : StepResult :=
  ⟨"update_server_address", false, "Failed to update: " ++ o.updateErrBody, none⟩

/-- Running state threaded through the steps of one provisioning run. -/
structure RunState where
  registry : Option GatewayRecord
  results : List StepResult
  credentials : Credentials
  calls : List Call
  files : List (String × String)
  deriving Repr, DecidableEq

/-- Result of the reconcile phase (Steps 1 and 2 of `provision`);
`halted` is true exactly when registration failed and the source
returns the summary early. -/
structure ReconcileOut where
  st : RunState
  halted : Bool
  deriving Repr, DecidableEq

/-- Steps 1 and 2 of `provision`: query the registry, then branch —
absent (or unreadable) record: register with the full payload, a failure
being a hard stop; present record with a drifted pointer: one field-mask
update of `gateway_server_address`, a failure being non-fatal; present
record with the correct pointer: no mutating call. -/
def reconcile (o : Oracle) (a : Args) (registry0 : Option GatewayRecord) : ReconcileOut :=
  let existing := get_gateway o.getFault registry0
  if existing.ok then
    if (existing.body.map GatewayRecord.gateway_server_address).getD "" = NAM1_HOST then
      ⟨⟨registry0, [checkStep existing.body], noCredentials,
        [Call.getGateway a.gateway_id], []⟩, false⟩
    else
      ⟨⟨applyUpdate o.updateOk (UpdatePayload.serverAddress NAM1_HOST) registry0,
        [checkStep existing.body, if o.updateOk then updateOkStep else updateFailStep o],
        noCredentials,
        [Call.getGateway a.gateway_id,
         Call.updateGateway a.gateway_id (UpdatePayload.serverAddress NAM1_HOST)
           ["gateway_server_address"]], []⟩, false⟩
  else
    if o.registerOk then
      ⟨⟨some (gatewayPayload a), [registerOkStep a], noCredentials,
        [Call.getGateway a.gateway_id, registerCall a], []⟩, false⟩
    else
      ⟨⟨registry0, [registerFailStep o], noCredentials,
        [Call.getGateway a.gateway_id, registerCall a], []⟩, true⟩

/-- Calls issued by Step 3 (antenna location). -/
def locationCalls (a : Args) : List Call :=
  match a.latitude, a.longitude with
  | some la, some lo =>
      [Call.updateGateway a.gateway_id (UpdatePayload.antennas la lo (a.altitude.getD 0))
        ["antennas"]]
  | _, _ => []

/-- Step records produced by Step 3 (antenna location). -/
def locationResults (o : Oracle) (a : Args) : List StepResult :=
  match a.latitude, a.longitude with
  | some la, some lo =>
      if o.locationOk then
        [⟨"set_location", true,
          "Location set: " ++ toString la ++ ", " ++ toString lo ++ ", alt " ++
            toString (a.altitude.getD 0) ++ "m", none⟩]
      else
        [⟨"set_location", false, "Failed: " ++ o.locationErrBody, none⟩]
  | _, _ => []

/-- Step 3 of `provision`: optional antenna location, a separate
field-mask update naming only `antennas`. -/
def stepLocation (o : Oracle) (a : Args) (st : RunState) : RunState :=
  match a.latitude, a.longitude with
  | some la, some lo =>
      { st with
        calls := st.calls ++ locationCalls a,
        registry := applyUpdate o.locationOk
          (UpdatePayload.antennas la lo (a.altitude.getD 0)) st.registry,
        results := st.results ++ locationResults o a }
  | _, _ => st

/-- Calls issued by Step 4 (LNS key creation). -/
def lnsCalls (o : Oracle) (a : Args) : List Call :=
  if a.generate_lns_key then
    [Call.createApiKey a.gateway_id ("FrostGuard LNS Key - " ++ o.today) ["RIGHT_GATEWAY_LINK"]]
  else []

/-- Step records produced by Step 4: only the key identifier is recorded,
never the secret. -/
def lnsResults (o : Oracle) (a : Args) : List StepResult :=
  if a.generate_lns_key then
    if o.lnsOk then
      [⟨"create_lns_key", true, "LNS key created (ID: " ++ o.lnsKeyId ++ ")", none⟩]
    else
      [⟨"create_lns_key", false, "Failed: " ++ o.lnsErrBody, none⟩]
  else []

/-- Step 4 of `provision`: create the LNS API key; on success the secret
goes into the in-memory `credentials` dict and into the key file on disk. -/
def stepLnsKey (o : Oracle) (a : Args) (st : RunState) : RunState :=
  if a.generate_lns_key then
    if o.lnsOk then
      { st with
        calls := st.calls ++ lnsCalls o a,
        results := st.results ++ lnsResults o a,
        credentials := { st.credentials with
          lns_key := some o.lnsKey,
          lns_key_id := some o.lnsKeyId,
          lns_key_file := some (a.output_dir ++ "/" ++ a.gateway_id ++ "_lns.key") },
        files := st.files ++ [(a.output_dir ++ "/" ++ a.gateway_id ++ "_lns.key",
          "Authorization: Bearer " ++ o.lnsKey)] }
    else
      { st with calls := st.calls ++ lnsCalls o a, results := st.results ++ lnsResults o a }
  else st

/-- Calls issued by Step 5 (CUPS key creation). -/
def cupsCalls (o : Oracle) (a : Args) : List Call :=
  if a.generate_cups_key then
    [Call.createApiKey a.gateway_id ("FrostGuard CUPS Key - " ++ o.today)
      ["RIGHT_GATEWAY_INFO", "RIGHT_GATEWAY_SETTINGS_BASIC", "RIGHT_GATEWAY_READ_SECRETS"]]
  else []

/-- Step records produced by Step 5: only the key identifier is recorded. -/
def cupsResults (o : Oracle) (a : Args) : List StepResult :=
  if a.generate_cups_key then
    if o.cupsOk then
      [⟨"create_cups_key", true, "CUPS key created (ID: " ++ o.cupsKeyId ++ ")", none⟩]
    else
      [⟨"create_cups_key", false, "Failed: " ++ o.cupsErrBody, none⟩]
  else []

/-- Step 5 of `provision`: optional CUPS API key. -/
def stepCupsKey (o : Oracle) (a : Args) (st : RunState) : RunState :=
  if a.generate_cups_key then
    if o.cupsOk then
      { st with
        calls := st.calls ++ cupsCalls o a,
        results := st.results ++ cupsResults o a,
        credentials := { st.credentials with
          cups_key := some o.cupsKey,
          cups_key_id := some o.cupsKeyId,
          cups_key_file := some (a.output_dir ++ "/" ++ a.gateway_id ++ "_cups.key") },
        files := st.files ++ [(a.output_dir ++ "/" ++ a.gateway_id ++ "_cups.key",
          "Authorization: Bearer " ++ o.cupsKey)] }
    else
      { st with calls := st.calls ++ cupsCalls o a, results := st.results ++ cupsResults o a }
  else st

/-- Step record of Step 6: a connected gateway or a 404 (not yet connected)
both count as success, anything else as failure. -/
def verifyStep (o : Oracle) : StepResult :=
  if o.statsOk then
    ⟨"verify_nam1", true, "Gateway is connected on NAM1!", none⟩
  else if o.statsStatus = 404 then
    ⟨"verify_nam1", true,
      "Gateway registered but not yet connected (expected — connect your hardware)", none⟩
  else
    ⟨"verify_nam1", false,
      "Could not verify on NAM1 (" ++ toString o.statsStatus ++ "): " ++ o.statsErrBody, none⟩

/-- Step 6 of `provision`: read-only connection-state check on the radio
plane; always runs, never mutates the registry. -/
def stepVerify (o : Oracle) (a : Args) (st : RunState) : RunState :=
  { st with
    calls := st.calls ++ [Call.getConnectionStats a.gateway_id],
    results := st.results ++ [verifyStep o] }

/-- Step records produced by Step 7 (database storage). -/
def dbResults (o : Oracle) (a : Args) : List StepResult :=
  match a.fg_org_id with
  | some _ =>
      if o.dbOk then [⟨"store_db", true, "Gateway stored in FrostGuard DB", none⟩]
      else [⟨"store_db", false,
        "Failed to store in FrostGuard DB (check Supabase credentials)", none⟩]
  | none => []

/-- Step 7 of `provision`: optional upsert into the FrostGuard database
(an external collaborator, modelled only by its success flag). -/
def stepDb (o : Oracle) (a : Args) (st : RunState) : RunState :=
  { st with results := st.results ++ dbResults o a }

/-- All calls issued after the reconcile phase. -/
def restCalls (o : Oracle) (a : Args) : List Call :=
  locationCalls a ++ lnsCalls o a ++ cupsCalls o a ++ [Call.getConnectionStats a.gateway_id]

/-- All step records produced after the reconcile phase. -/
def restResults (o : Oracle) (a : Args) : List StepResult :=
  locationResults o a ++ lnsResults o a ++ cupsResults o a ++ [verifyStep o] ++ dbResults o a

/-- Steps 3 through 7 of `provision`, in source order. -/
def provisionRest (o : Oracle) (a : Args) (st : RunState) : RunState :=
  stepDb o a (stepVerify o a (stepCupsKey o a (stepLnsKey o a (stepLocation o a st))))

/-- Everything a run of `provision` produces: the persisted log, the final
registry state, the trace of remote calls, and the key files written. -/
structure ProvisionResult where
  log : RunLog
  registry : Option GatewayRecord
  calls : List Call
  files : List (String × String)
  deriving Repr, DecidableEq

/-- `GatewayProvisioner.provision`: reconcile, then — unless registration
failed, which returns the summary immediately — location, credentials,
verification and database storage; a summary is produced in every case. -/
def provision (o : Oracle) (a : Args) (registry0 : Option GatewayRecord) : ProvisionResult :=
  let rc := reconcile o a registry0
  if rc.halted then
    ⟨mkLog a.gateway_id rc.st.results rc.st.credentials, rc.st.registry, rc.st.calls, rc.st.files⟩
  else
    let st := provisionRest o a rc.st
    ⟨mkLog a.gateway_id st.results st.credentials, st.registry, st.calls, st.files⟩

/-- Remote environment of one deprovisioning run. -/
structure DeprovOracle where
  checkFault : Option (Nat × String)
  deleteOk : Bool
  deleteStatus : Nat
  deleteErrBody : String
  purgeOk : Bool
  purgeStatus : Nat
  purgeErrBody : String
  verifyFault : Option (Nat × String)
  deriving Repr, DecidableEq

/-- Result of `deprovision_gateway`: the returned flag, the call trace and
the final registry state. -/
structure DeprovResult where
  ok : Bool
  calls : List Call
  registry : Option GatewayRecord
  deriving Repr, DecidableEq

/-- `deprovision_gateway`: check existence (any failure aborts before any
mutation), soft-delete (failure aborts before purge), optional purge
(failure aborts before the final verification, and nothing is undone),
then a final confirmation read. -/
def deprovision_gateway (o : DeprovOracle) (gateway_id : String) (purge : Bool)
    (registry0 : Option GatewayRecord) : DeprovResult :=
  let check := get_gateway o.checkFault registry0
  if !check.ok then
    ⟨false, [Call.getGateway gateway_id], registry0⟩
  else
    let deleteSucceeded := o.deleteOk || o.deleteStatus == 200
    let registry1 := if deleteSucceeded then none else registry0
    if deleteSucceeded then
      if purge then
        if o.purgeOk || o.purgeStatus == 200 then
          ⟨true, [Call.getGateway gateway_id, Call.deleteGateway gateway_id,
            Call.purgeGateway gateway_id, Call.getGateway gateway_id], registry1⟩
        else
          ⟨false, [Call.getGateway gateway_id, Call.deleteGateway gateway_id,
            Call.purgeGateway gateway_id], registry1⟩
      else
        ⟨true, [Call.getGateway gateway_id, Call.deleteGateway gateway_id,
          Call.getGateway gateway_id], registry1⟩
    else
      ⟨false, [Call.getGateway gateway_id, Call.deleteGateway gateway_id], registry0⟩

/-- Default gateway id written out the way the claim words it:
`fg-gw-` followed by the last eight characters of the EUI, lower-cased. -/
def defaultGatewayIdSpec (gateway_eui : String) : String :=
  "fg-gw-" ++ (gateway_eui.takeRight 8).toLower

/-- Gateway-id derivation of `interactive_provision` (line 713 of the
source): the entered id if non-empty, else the default built from the EUI. -/
def interactiveGatewayId (entered : String) (gateway_eui : String) : String :=
  if entered = "" then "fg-gw-" ++ (gateway_eui.takeRight 8).toLower else entered

/-- Gateway-id derivation of `batch_provision` (line 823 of the source):
`gw.get("gateway_id", default)`. -/
def batchGatewayId (json_gateway_id : Option String) (gateway_eui : String) : String :=
  json_gateway_id.getD ("fg-gw-" ++ (gateway_eui.takeRight 8).toLower)

/-- Gateway-id derivation of `main` (line 943 of the source):
`args.gateway_id or default`, where an empty string is falsy. -/
def mainGatewayId (arg_gateway_id : Option String) (gateway_eui : String) : String :=
  match arg_gateway_id with
  | some s => if s = "" then "fg-gw-" ++ (gateway_eui.takeRight 8).toLower else s
  | none => "fg-gw-" ++ (gateway_eui.takeRight 8).toLower

/-- Sample desired state used by the concrete witnesses. -/
def sampleArgs : Args :=
  { gateway_id := "fg-gw-a00009ef"
    gateway_eui := "00800000A00009EF"
    name := "Walk-in Cooler GW"
    owner_id := "my-ttn-user" }

/-- Sample environment in which every remote call succeeds (the radio
plane answers 404: registered but not yet connected, a success outcome). -/
def okOracle : Oracle :=
  { getFault := none
    registerOk := true
    registerStatus := 200
    registerErrBody := ""
    updateOk := true
    updateErrBody := ""
    locationOk := true
    locationErrBody := ""
    lnsOk := true
    lnsKey := "NNSXS.SECRETLNSKEYVALUE"
    lnsKeyId := "LNSKEYID01"
    lnsErrBody := ""
    cupsOk := true
    cupsKey := "NNSXS.SECRETCUPSKEYVALUE"
    cupsKeyId := "CUPSKEYID01"
    cupsErrBody := ""
    statsOk := false
    statsStatus := 404
    statsErrBody := ""
    dbOk := true
    today := "20260211" }

/-- Sample environment in which the Step-1 existence query fails with an
authorization error instead of a clean 404. -/
def authFailOracle : Oracle :=
  { okOracle with getFault := some (401, "unauthorized") }

/-- Sample environment in which registration is rejected. -/
def regFailOracle : Oracle :=
  { okOracle with registerOk := false, registerStatus := 403, registerErrBody := "forbidden" }

/-- Sample environment in which the drift-correcting update is rejected. -/
def updFailOracle : Oracle :=
  { okOracle with updateOk := false, updateErrBody := "update rejected" }

/-- Sample existing registry record whose pointer has drifted. -/
def driftedRecord : GatewayRecord :=
  { gateway_id := "fg-gw-a00009ef"
    eui := "00800000A00009EF"
    name := "Walk-in Cooler GW"
    frequency_plan_ids := ["US_902_928_FSB_2"]
    gateway_server_address := "eu1.cloud.thethings.network"
    enforce_duty_cycle := true
    require_authenticated_connection := true
    status_public := false
    location_public := false }

/-- Sample deprovisioning environment in which every call succeeds. -/
def okDeprovOracle : DeprovOracle :=
  { checkFault := none
    deleteOk := true
    deleteStatus := 200
    deleteErrBody := ""
    purgeOk := true
    purgeStatus := 200
    purgeErrBody := ""
    verifyFault := none }

/-! Structural lemmas about the post-reconcile steps. -/

theorem stepLocation_results (o : Oracle) (a : Args) (st : RunState) :
    (stepLocation o a st).results = st.results ++ locationResults o a := by
  rcases ha : a.latitude with _ | la <;> rcases hb : a.longitude with _ | lo <;>
    simp [stepLocation, locationResults, ha, hb]

theorem stepLocation_calls (o : Oracle) (a : Args) (st : RunState) :
    (stepLocation o a st).calls = st.calls ++ locationCalls a := by
  rcases ha : a.latitude with _ | la <;> rcases hb : a.longitude with _ | lo <;>
    simp [stepLocation, locationCalls, ha, hb]

theorem stepLocation_credentials (o : Oracle) (a : Args) (st : RunState) :
    (stepLocation o a st).credentials = st.credentials := by
  rcases ha : a.latitude with _ | la <;> rcases hb : a.longitude with _ | lo <;>
    simp [stepLocation, ha, hb]

theorem stepLocation_files (o : Oracle) (a : Args) (st : RunState) :
    (stepLocation o a st).files = st.files := by
  rcases ha : a.latitude with _ | la <;> rcases hb : a.longitude with _ | lo <;>
    simp [stepLocation, ha, hb]

theorem applyUpdate_antennas_addr (ok : Bool) (la lo al : Int) (r : Option GatewayRecord) :
    (applyUpdate ok (UpdatePayload.antennas la lo al) r).map GatewayRecord.gateway_server_address
      = r.map GatewayRecord.gateway_server_address := by
  cases r <;> unfold applyUpdate <;> split <;> simp

theorem stepLocation_registry_addr (o : Oracle) (a : Args) (st : RunState) :
    (stepLocation o a st).registry.map GatewayRecord.gateway_server_address
      = st.registry.map GatewayRecord.gateway_server_address := by
  rcases ha : a.latitude with _ | la <;> rcases hb : a.longitude with _ | lo <;>
    simp [stepLocation, ha, hb, applyUpdate_antennas_addr]

theorem stepLnsKey_results (o : Oracle) (a : Args) (st : RunState) :
    (stepLnsKey o a st).results = st.results ++ lnsResults o a := by
  unfold stepLnsKey lnsResults
  split <;> [split <;> simp; simp]

theorem stepLnsKey_calls (o : Oracle) (a : Args) (st : RunState) :
    (stepLnsKey o a st).calls = st.calls ++ lnsCalls o a := by
  unfold stepLnsKey lnsCalls
  split <;> [split <;> simp; simp]

theorem stepLnsKey_registry (o : Oracle) (a : Args) (st : RunState) :
    (stepLnsKey o a st).registry = st.registry := by
  unfold stepLnsKey
  split <;> [split <;> simp; simp]

theorem stepLnsKey_lns_id (o : Oracle) (a : Args) (st : RunState) :
    (stepLnsKey o a st).credentials.lns_key_id =
      if a.generate_lns_key && o.lnsOk then some o.lnsKeyId else st.credentials.lns_key_id := by
  unfold stepLnsKey
  split <;> rename_i h1 <;> simp [h1]
  split <;> rename_i h2 <;> simp [h2]

theorem stepLnsKey_cups_id (o : Oracle) (a : Args) (st : RunState) :
    (stepLnsKey o a st).credentials.cups_key_id = st.credentials.cups_key_id := by
  unfold stepLnsKey
  split <;> [split <;> simp; simp]

theorem stepCupsKey_results (o : Oracle) (a : Args) (st : RunState) :
    (stepCupsKey o a st).results = st.results ++ cupsResults o a := by
  unfold stepCupsKey cupsResults
  split <;> [split <;> simp; simp]

theorem stepCupsKey_calls (o : Oracle) (a : Args) (st : RunState) :
    (stepCupsKey o a st).calls = st.calls ++ cupsCalls o a := by
  unfold stepCupsKey cupsCalls
  split <;> [split <;> simp; simp]

theorem stepCupsKey_registry (o : Oracle) (a : Args) (st : RunState) :
    (stepCupsKey o a st).registry = st.registry := by
  unfold stepCupsKey
  split <;> [split <;> simp; simp]

theorem stepCupsKey_lns_id (o : Oracle) (a : Args) (st : RunState) :
    (stepCupsKey o a st).credentials.lns_key_id = st.credentials.lns_key_id := by
  unfold stepCupsKey
  split <;> [split <;> simp; simp]

theorem stepCupsKey_cups_id (o : Oracle) (a : Args) (st : RunState) :
    (stepCupsKey o a st).credentials.cups_key_id =
      if a.generate_cups_key && o.cupsOk then some o.cupsKeyId else st.credentials.cups_key_id := by
  unfold stepCupsKey
  split <;> rename_i h1 <;> simp [h1]
  split <;> rename_i h2 <;> simp [h2]

theorem stepVerify_results (o : Oracle) (a : Args) (st : RunState) :
    (stepVerify o a st).results = st.results ++ [verifyStep o] := rfl

theorem stepVerify_calls (o : Oracle) (a : Args) (st : RunState) :
    (stepVerify o a st).calls = st.calls ++ [Call.getConnectionStats a.gateway_id] := rfl

theorem stepVerify_registry (o : Oracle) (a : Args) (st : RunState) :
    (stepVerify o a st).registry = st.registry := rfl

theorem stepVerify_credentials (o : Oracle) (a : Args) (st : RunState) :
    (stepVerify o a st).credentials = st.credentials := rfl

theorem stepDb_results (o : Oracle) (a : Args) (st : RunState) :
    (stepDb o a st).results = st.results ++ dbResults o a := rfl

theorem stepDb_calls (o : Oracle) (a : Args) (st : RunState) :
    (stepDb o a st).calls = st.calls := rfl

theorem stepDb_registry (o : Oracle) (a : Args) (st : RunState) :
    (stepDb o a st).registry = st.registry := rfl

theorem stepDb_credentials (o : Oracle) (a : Args) (st : RunState) :
    (stepDb o a st).credentials = st.credentials := rfl

theorem provisionRest_results (o : Oracle) (a : Args) (st : RunState) :
    (provisionRest o a st).results = st.results ++ restResults o a := by
  unfold provisionRest restResults
  rw [stepDb_results, stepVerify_results, stepCupsKey_results, stepLnsKey_results,
    stepLocation_results]
  simp [List.append_assoc]

theorem provisionRest_calls (o : Oracle) (a : Args) (st : RunState) :
    (provisionRest o a st).calls = st.calls ++ restCalls o a := by
  unfold provisionRest restCalls
  rw [stepDb_calls, stepVerify_calls, stepCupsKey_calls, stepLnsKey_calls, stepLocation_calls]
  simp [List.append_assoc]

theorem provisionRest_registry_addr (o : Oracle) (a : Args) (st : RunState) :
    (provisionRest o a st).registry.map GatewayRecord.gateway_server_address
      = st.registry.map GatewayRecord.gateway_server_address := by
  unfold provisionRest
  rw [stepDb_registry, stepVerify_registry, stepCupsKey_registry, stepLnsKey_registry,
    stepLocation_registry_addr]

theorem provisionRest_registry_eq_loc (o : Oracle) (a : Args) (st : RunState) :
    (provisionRest o a st).registry = (stepLocation o a st).registry := by
  unfold provisionRest
  rw [stepDb_registry, stepVerify_registry, stepCupsKey_registry, stepLnsKey_registry]

theorem provisionRest_lns_id (o : Oracle) (a : Args) (st : RunState) :
    (provisionRest o a st).credentials.lns_key_id =
      if a.generate_lns_key && o.lnsOk then some o.lnsKeyId
      else st.credentials.lns_key_id := by
  unfold provisionRest
  rw [stepDb_credentials, stepVerify_credentials, stepCupsKey_lns_id, stepLnsKey_lns_id,
    stepLocation_credentials]

theorem provisionRest_cups_id (o : Oracle) (a : Args) (st : RunState) :
    (provisionRest o a st).credentials.cups_key_id =
      if a.generate_cups_key && o.cupsOk then some o.cupsKeyId
      else st.credentials.cups_key_id := by
  unfold provisionRest
  rw [stepDb_credentials, stepVerify_credentials, stepCupsKey_cups_id, stepLnsKey_cups_id,
    stepLocation_credentials]

/-! Branch characterisations of the reconcile phase. -/

theorem reconcile_notok (o : Oracle) (a : Args) (r0 : Option GatewayRecord)
    (h : (get_gateway o.getFault r0).ok = false) :
    reconcile o a r0 =
      if o.registerOk then
        ⟨⟨some (gatewayPayload a), [registerOkStep a], noCredentials,
          [Call.getGateway a.gateway_id, registerCall a], []⟩, false⟩
      else
        ⟨⟨r0, [registerFailStep o], noCredentials,
          [Call.getGateway a.gateway_id, registerCall a], []⟩, true⟩ := by
  simp [reconcile, h]

theorem reconcile_correct (o : Oracle) (a : Args) (g : GatewayRecord)
    (hf : o.getFault = none) (hg : g.gateway_server_address = NAM1_HOST) :
    reconcile o a (some g) =
      ⟨⟨some g, [checkStep (some g)], noCredentials, [Call.getGateway a.gateway_id], []⟩,
        false⟩ := by
  simp [reconcile, get_gateway, hf, hg]

theorem reconcile_drifted (o : Oracle) (a : Args) (g : GatewayRecord)
    (hf : o.getFault = none) (hg : g.gateway_server_address ≠ NAM1_HOST) :
    reconcile o a (some g) =
      ⟨⟨applyUpdate o.updateOk (UpdatePayload.serverAddress NAM1_HOST) (some g),
        [checkStep (some g), if o.updateOk then updateOkStep else updateFailStep o],
        noCredentials,
        [Call.getGateway a.gateway_id,
         Call.updateGateway a.gateway_id (UpdatePayload.serverAddress NAM1_HOST)
           ["gateway_server_address"]], []⟩, false⟩ := by
  simp [reconcile, get_gateway, hf, hg]

theorem provision_halted (o : Oracle) (a : Args) (r0 : Option GatewayRecord)
    (h : (reconcile o a r0).halted = true) :
    provision o a r0 =
      ⟨mkLog a.gateway_id (reconcile o a r0).st.results (reconcile o a r0).st.credentials,
        (reconcile o a r0).st.registry, (reconcile o a r0).st.calls,
        (reconcile o a r0).st.files⟩ := by
  simp [provision, h]

theorem provision_not_halted (o : Oracle) (a : Args) (r0 : Option GatewayRecord)
    (h : (reconcile o a r0).halted = false) :
    provision o a r0 =
      ⟨mkLog a.gateway_id (provisionRest o a (reconcile o a r0).st).results
          (provisionRest o a (reconcile o a r0).st).credentials,
        (provisionRest o a (reconcile o a r0).st).registry,
        (provisionRest o a (reconcile o a r0).st).calls,
        (provisionRest o a (reconcile o a r0).st).files⟩ := by
  simp [provision, h]

/-! Irrelevance lemmas: which oracle fields each phase ignores. -/

theorem reconcile_secrets (o : Oracle) (a : Args) (r0 : Option GatewayRecord) (k k2 : String) :
    reconcile { o with lnsKey := k, cupsKey := k2 } a r0 = reconcile o a r0 := by
  cases o
  rfl

theorem restResults_secrets (o : Oracle) (a : Args) (k k2 : String) :
    restResults { o with lnsKey := k, cupsKey := k2 } a = restResults o a := by
  cases o
  rfl

theorem restCalls_secrets (o : Oracle) (a : Args) (k k2 : String) :
    restCalls { o with lnsKey := k, cupsKey := k2 } a = restCalls o a := by
  cases o
  rfl

theorem reconcile_stats (o : Oracle) (a : Args) (r0 : Option GatewayRecord)
    (b : Bool) (n : Nat) (e : String) :
    reconcile { o with statsOk := b, statsStatus := n, statsErrBody := e } a r0
      = reconcile o a r0 := by
  cases o
  rfl

theorem stepLocation_stats (o : Oracle) (a : Args) (st : RunState)
    (b : Bool) (n : Nat) (e : String) :
    stepLocation { o with statsOk := b, statsStatus := n, statsErrBody := e } a st
      = stepLocation o a st := by
  cases o
  rfl

/-! Step-name inventories. -/

theorem reconcile_step_names (o : Oracle) (a : Args) (r0 : Option GatewayRecord) :
    ∀ s ∈ (reconcile o a r0).st.results,
      s.step = "check_existing" ∨ s.step = "register" ∨ s.step = "update_server_address" := by
  intro s hs
  simp only [reconcile] at hs
  split at hs
  · split at hs
    · simp at hs
      simp [hs, checkStep]
    · simp at hs
      rcases hs with hs | hs
      · simp [hs, checkStep]
      · simp [hs]
        split <;> simp [updateOkStep, updateFailStep]
  · split at hs <;> simp at hs <;> simp [hs, registerOkStep, registerFailStep]

theorem locationResults_names (o : Oracle) (a : Args) :
    ∀ s ∈ locationResults o a, s.step = "set_location" := by
  intro s hs
  simp only [locationResults] at hs
  split at hs
  · split at hs <;> simp at hs <;> simp [hs]
  · simp at hs

theorem lnsResults_names (o : Oracle) (a : Args) :
    ∀ s ∈ lnsResults o a, s.step = "create_lns_key" := by
  intro s hs
  simp only [lnsResults] at hs
  split at hs
  · split at hs <;> simp at hs <;> simp [hs]
  · simp at hs

theorem cupsResults_names (o : Oracle) (a : Args) :
    ∀ s ∈ cupsResults o a, s.step = "create_cups_key" := by
  intro s hs
  simp only [cupsResults] at hs
  split at hs
  · split at hs <;> simp at hs <;> simp [hs]
  · simp at hs

theorem dbResults_names (o : Oracle) (a : Args) :
    ∀ s ∈ dbResults o a, s.step = "store_db" := by
  intro s hs
  simp only [dbResults] at hs
  split at hs
  · split at hs <;> simp at hs <;> simp [hs]
  · simp at hs

theorem verifyStep_success (o : Oracle) :
    (verifyStep o).success = (o.statsOk || o.statsStatus == 404) := by
  unfold verifyStep
  split
  · rename_i h
    simp [h]
  · split <;> rename_i h1 h2 <;> simp at h1 <;> simp [h1, h2]

theorem verifyStep_name (o : Oracle) : (verifyStep o).step = "verify_nam1" := by
  unfold verifyStep
  split <;> [rfl; split <;> rfl]

/-! Call-trace inventories of the post-reconcile phase. -/

theorem restCalls_no_register (o : Oracle) (a : Args) :
    (restCalls o a).filter Call.isRegister = [] := by
  unfold restCalls locationCalls lnsCalls cupsCalls
  rcases a.latitude with _ | la <;> rcases a.longitude with _ | lo <;>
    split <;> split <;> simp [Call.isRegister, List.filter]

theorem restCalls_no_server_update (o : Oracle) (a : Args) :
    (restCalls o a).filter Call.isServerAddressUpdate = [] := by
  unfold restCalls locationCalls lnsCalls cupsCalls
  rcases a.latitude with _ | la <;> rcases a.longitude with _ | lo <;>
    split <;> split <;> simp [Call.isServerAddressUpdate, List.filter]

theorem restCalls_has_stats (o : Oracle) (a : Args) :
    Call.getConnectionStats a.gateway_id ∈ restCalls o a := by
  unfold restCalls
  simp

/-- Core invariant lemma: whenever every recorded registration and
server-address-update step of a run succeeded, the final registry record
exists and its pointer is the fixed radio-plane host. -/
theorem provision_pointer_aux (o : Oracle) (a : Args) (r0 : Option GatewayRecord)
    (h : ∀ s ∈ (provision o a r0).log.steps,
        (s.step = "register" ∨ s.step = "update_server_address") → s.success = true) :
    (provision o a r0).registry.map GatewayRecord.gateway_server_address = some NAM1_HOST := by
  by_cases hok : (get_gateway o.getFault r0).ok = true
  case neg =>
    have hok' : (get_gateway o.getFault r0).ok = false := by
      simpa using hok
    by_cases hr : o.registerOk = true
    case pos =>
      have hrc : reconcile o a r0 =
          ⟨⟨some (gatewayPayload a), [registerOkStep a], noCredentials,
            [Call.getGateway a.gateway_id, registerCall a], []⟩, false⟩ := by
        rw [reconcile_notok o a r0 hok']
        simp [hr]
      rw [provision_not_halted o a r0 (by rw [hrc])]
      simp [provisionRest_registry_addr, hrc, gatewayPayload]
    case neg =>
      have hr' : o.registerOk = false := by simpa using hr
      have hrc : reconcile o a r0 =
          ⟨⟨r0, [registerFailStep o], noCredentials,
            [Call.getGateway a.gateway_id, registerCall a], []⟩, true⟩ := by
        rw [reconcile_notok o a r0 hok']
        simp [hr']
      have hmem : registerFailStep o ∈ (provision o a r0).log.steps := by
        rw [provision_halted o a r0 (by rw [hrc])]
        simp [mkLog, hrc]
      have hcon := h _ hmem (Or.inl rfl)
      simp [registerFailStep] at hcon
  case pos =>
    rcases hf : o.getFault with _ | ⟨s, b⟩
    case some =>
      rw [hf] at hok
      simp [get_gateway] at hok
    case none =>
      rcases hr0 : r0 with _ | g
      case none =>
        rw [hf, hr0] at hok
        simp [get_gateway] at hok
      case some =>
        subst hr0
        by_cases hg : g.gateway_server_address = NAM1_HOST
        case pos =>
          have hrc := reconcile_correct o a g hf hg
          rw [provision_not_halted o a (some g) (by rw [hrc])]
          simp [provisionRest_registry_addr, hrc, hg]
        case neg =>
          have hrc := reconcile_drifted o a g hf hg
          by_cases hu : o.updateOk = true
          case pos =>
            rw [provision_not_halted o a (some g) (by rw [hrc])]
            simp [provisionRest_registry_addr, hrc, applyUpdate, hu]
          case neg =>
            have hu' : o.updateOk = false := by simpa using hu
            have hmem : updateFailStep o ∈ (provision o a (some g)).log.steps := by
              rw [provision_not_halted o a (some g) (by rw [hrc])]
              simp [mkLog, provisionRest_results, hrc, hu']
            have hcon := h _ hmem (Or.inr rfl)
            simp [updateFailStep] at hcon

/-- Claim C1: at the end of a successful reconciliation run of `provision`
(every recorded registration or server-address-update step succeeded), the
identity-registry record exists and its `gateway_server_address` equals the
fixed radio-plane host `NAM1_HOST` — whether the gateway was newly
registered on the Absent path (the pointer being part of the one
registration payload), had its drifted pointer corrected, or already
carried the correct pointer. -/
theorem provision_final_pointer (o : Oracle) (a : Args) (r0 : Option GatewayRecord)
    (h : ∀ s ∈ (provision o a r0).log.steps,
        (s.step = "register" ∨ s.step = "update_server_address") → s.success = true) :
    (provision o a r0).registry.map GatewayRecord.gateway_server_address = some NAM1_HOST :=
  provision_pointer_aux o a r0 h

/-- Concrete instantiation of the final-pointer invariant: a fresh
registration in the all-success environment. -/
theorem provision_final_pointer_witness :
    (∀ s ∈ (provision okOracle sampleArgs none).log.steps,
        (s.step = "register" ∨ s.step = "update_server_address") → s.success = true) ∧
    (provision okOracle sampleArgs none).registry.map GatewayRecord.gateway_server_address
      = some NAM1_HOST :=
  ⟨by decide, provision_final_pointer okOracle sampleArgs none (by decide)⟩

/-- Claim C2: a second `provision` run against the registry state produced
by a successful first run takes the Present-Correct branch — its reconcile
phase issues only the read (no registration call, no update call anywhere
in the run), and the final `server_pointer` is identical to the first
run's. -/
theorem second_run_idempotent (o1 o2 : Oracle) (a : Args) (r0 : Option GatewayRecord)
    (h1 : ∀ s ∈ (provision o1 a r0).log.steps,
        (s.step = "register" ∨ s.step = "update_server_address") → s.success = true)
    (h2 : o2.getFault = none) :
    (reconcile o2 a (provision o1 a r0).registry).st.calls = [Call.getGateway a.gateway_id] ∧
    (reconcile o2 a (provision o1 a r0).registry).halted = false ∧
    (provision o2 a (provision o1 a r0).registry).calls.filter Call.isRegister = [] ∧
    (provision o2 a (provision o1 a r0).registry).calls.filter Call.isServerAddressUpdate = [] ∧
    (provision o2 a (provision o1 a r0).registry).registry.map
        GatewayRecord.gateway_server_address
      = (provision o1 a r0).registry.map GatewayRecord.gateway_server_address := by
  have hp := provision_pointer_aux o1 a r0 h1
  rcases hg1 : (provision o1 a r0).registry with _ | g1
  · rw [hg1] at hp
    simp at hp
  · rw [hg1] at hp
    simp only [Option.map_some', Option.some.injEq] at hp
    have hrc := reconcile_correct o2 a g1 h2 hp
    refine ⟨by rw [hrc], by rw [hrc], ?_, ?_, ?_⟩
    · rw [provision_not_halted o2 a (some g1) (by rw [hrc])]
      simp [provisionRest_calls, hrc, List.filter_append, restCalls_no_register,
        Call.isRegister, List.filter]
    · rw [provision_not_halted o2 a (some g1) (by rw [hrc])]
      simp [provisionRest_calls, hrc, List.filter_append, restCalls_no_server_update,
        Call.isServerAddressUpdate, List.filter]
    · rw [provision_not_halted o2 a (some g1) (by rw [hrc])]
      simp [provisionRest_registry_addr, hrc]

/-- Concrete instantiation of idempotence: two all-success runs starting
from an absent record. -/
theorem second_run_idempotent_witness :
    (∀ s ∈ (provision okOracle sampleArgs none).log.steps,
        (s.step = "register" ∨ s.step = "update_server_address") → s.success = true) ∧
    okOracle.getFault = none ∧
    ((reconcile okOracle sampleArgs (provision okOracle sampleArgs none).registry).st.calls
        = [Call.getGateway sampleArgs.gateway_id] ∧
      (reconcile okOracle sampleArgs (provision okOracle sampleArgs none).registry).halted
        = false ∧
      (provision okOracle sampleArgs
          (provision okOracle sampleArgs none).registry).calls.filter Call.isRegister = [] ∧
      (provision okOracle sampleArgs
          (provision okOracle sampleArgs none).registry).calls.filter
            Call.isServerAddressUpdate = [] ∧
      (provision okOracle sampleArgs
          (provision okOracle sampleArgs none).registry).registry.map
            GatewayRecord.gateway_server_address
        = (provision okOracle sampleArgs none).registry.map
            GatewayRecord.gateway_server_address) :=
  ⟨by decide, rfl,
    second_run_idempotent okOracle okOracle sampleArgs none (by decide) rfl⟩

/-- Claim C3: for an existing record whose pointer has drifted, the run
issues exactly one update call whose field mask names only
`gateway_server_address` (with only that field in the payload), issues no
registration call, and when that update fails the failure is recorded but
the run still reaches the later steps (the radio-plane verification call
is issued). -/
theorem drift_correction (o : Oracle) (a : Args) (g : GatewayRecord)
    (hf : o.getFault = none) (hne : g.gateway_server_address ≠ NAM1_HOST) :
    (provision o a (some g)).calls.filter Call.isServerAddressUpdate =
      [Call.updateGateway a.gateway_id (UpdatePayload.serverAddress NAM1_HOST)
        ["gateway_server_address"]] ∧
    (provision o a (some g)).calls.filter Call.isRegister = [] ∧
    (o.updateOk = false →
      updateFailStep o ∈ (provision o a (some g)).log.steps ∧
      Call.getConnectionStats a.gateway_id ∈ (provision o a (some g)).calls) := by
  have hrc := reconcile_drifted o a g hf hne
  have hnh : (reconcile o a (some g)).halted = false := by rw [hrc]
  rw [provision_not_halted o a (some g) hnh]
  refine ⟨?_, ?_, fun hu => ⟨?_, ?_⟩⟩
  · simp [provisionRest_calls, hrc, List.filter_append, restCalls_no_server_update,
      Call.isServerAddressUpdate, List.filter]
  · simp [provisionRest_calls, hrc, List.filter_append, restCalls_no_register,
      Call.isRegister, List.filter]
  · simp [mkLog, provisionRest_results, hrc, hu]
  · simp [provisionRest_calls, hrc, restCalls_has_stats]

/-- Concrete instantiation of drift correction, with the update rejected:
the failure is recorded and the verification step still runs. -/
theorem drift_correction_witness :
    updFailOracle.getFault = none ∧
    driftedRecord.gateway_server_address ≠ NAM1_HOST ∧
    ((provision updFailOracle sampleArgs (some driftedRecord)).calls.filter
        Call.isServerAddressUpdate =
      [Call.updateGateway sampleArgs.gateway_id (UpdatePayload.serverAddress NAM1_HOST)
        ["gateway_server_address"]] ∧
    (provision updFailOracle sampleArgs (some driftedRecord)).calls.filter Call.isRegister
        = [] ∧
    (updFailOracle.updateOk = false →
      updateFailStep updFailOracle
          ∈ (provision updFailOracle sampleArgs (some driftedRecord)).log.steps ∧
      Call.getConnectionStats sampleArgs.gateway_id
          ∈ (provision updFailOracle sampleArgs (some driftedRecord)).calls)) :=
  ⟨rfl, by decide,
    drift_correction updFailOracle sampleArgs driftedRecord rfl (by decide)⟩

/-- Claim C4: on the Absent path, a failed registration halts the run
right there — the run log holds exactly the one failed `register` step, the
only calls issued are the existence read and the registration attempt (no
location update, no key creation, no verification), and the summary is
still produced, with an empty credentials section. -/
theorem register_failure_halts (o : Oracle) (a : Args)
    (hf : o.getFault = none) (hreg : o.registerOk = false) :
    (provision o a none).log.steps = [registerFailStep o] ∧
    (provision o a none).calls = [Call.getGateway a.gateway_id, registerCall a] ∧
    (provision o a none).log = mkLog a.gateway_id [registerFailStep o] noCredentials := by
  have hok : (get_gateway o.getFault none).ok = false := by
    rw [hf]
    rfl
  have hrc : reconcile o a none =
      ⟨⟨none, [registerFailStep o], noCredentials,
        [Call.getGateway a.gateway_id, registerCall a], []⟩, true⟩ := by
    rw [reconcile_notok o a none hok]
    simp [hreg]
  rw [provision_halted o a none (by rw [hrc]), hrc]
  exact ⟨rfl, rfl, rfl⟩

/-- Concrete instantiation of the registration hard stop. -/
theorem register_failure_halts_witness :
    regFailOracle.getFault = none ∧
    regFailOracle.registerOk = false ∧
    ((provision regFailOracle sampleArgs none).log.steps = [registerFailStep regFailOracle] ∧
    (provision regFailOracle sampleArgs none).calls =
      [Call.getGateway sampleArgs.gateway_id, registerCall sampleArgs] ∧
    (provision regFailOracle sampleArgs none).log =
      mkLog sampleArgs.gateway_id [registerFailStep regFailOracle] noCredentials) :=
  ⟨rfl, rfl, register_failure_halts regFailOracle sampleArgs rfl rfl⟩

/-- Claim C5 counterexample: with the existence query failing 401 — an
auth error, not a not-found — the run is not terminated at that step: the
registration call is still issued, and the run proceeds all the way to the
radio-plane verification call. -/
theorem get_error_not_terminal_cex :
    authFailOracle.getFault = some (401, "unauthorized") ∧
    registerCall sampleArgs ∈ (provision authFailOracle sampleArgs none).calls ∧
    Call.getConnectionStats sampleArgs.gateway_id
      ∈ (provision authFailOracle sampleArgs none).calls := by
  decide

/-- Claim C5 (amended): when the initial existence query fails with any
status, the source only prints a warning and falls through to the Absent
path: it attempts registration, and when that registration succeeds the
run continues through the remaining steps (the verification call is
issued). Only a subsequent registration failure stops the run. -/
theorem get_error_proceeds_to_register (o : Oracle) (a : Args) (r0 : Option GatewayRecord)
    (s : Nat) (b : String) (hf : o.getFault = some (s, b)) :
    registerCall a ∈ (provision o a r0).calls ∧
    (o.registerOk = true →
      Call.getConnectionStats a.gateway_id ∈ (provision o a r0).calls) := by
  have hok : (get_gateway o.getFault r0).ok = false := by
    rw [hf]
    rfl
  by_cases hr : o.registerOk = true
  · have hrc : reconcile o a r0 =
        ⟨⟨some (gatewayPayload a), [registerOkStep a], noCredentials,
          [Call.getGateway a.gateway_id, registerCall a], []⟩, false⟩ := by
      rw [reconcile_notok o a r0 hok]
      simp [hr]
    rw [provision_not_halted o a r0 (by rw [hrc])]
    constructor
    · simp [provisionRest_calls, hrc]
    · intro _
      simp [provisionRest_calls, hrc, restCalls_has_stats]
  · have hr' : o.registerOk = false := by simpa using hr
    have hrc : reconcile o a r0 =
        ⟨⟨r0, [registerFailStep o], noCredentials,
          [Call.getGateway a.gateway_id, registerCall a], []⟩, true⟩ := by
      rw [reconcile_notok o a r0 hok]
      simp [hr']
    rw [provision_halted o a r0 (by rw [hrc])]
    refine ⟨by simp [hrc], fun hcon => ?_⟩
    rw [hr'] at hcon
    cases hcon

/-- Concrete instantiation of the amended Claim C5 behaviour. -/
theorem get_error_proceeds_to_register_witness :
    authFailOracle.getFault = some (401, "unauthorized") ∧
    (registerCall sampleArgs ∈ (provision authFailOracle sampleArgs none).calls ∧
      (authFailOracle.registerOk = true →
        Call.getConnectionStats sampleArgs.gateway_id
          ∈ (provision authFailOracle sampleArgs none).calls)) :=
  ⟨rfl, get_error_proceeds_to_register authFailOracle sampleArgs none 401 "unauthorized" rfl⟩

/-- Claim C6: the persisted run log — the recorded steps and the
credentials section of the summary — is independent of the issued
credential secret values: substituting arbitrary strings for the LNS and
CUPS secrets leaves the whole log, and the call trace, unchanged, so no
secret can appear in them; by construction of `mkLog` the credentials
section carries only the key identifiers. -/
theorem run_log_never_contains_secrets (o : Oracle) (a : Args) (r0 : Option GatewayRecord)
    (k k2 : String) :
    (provision { o with lnsKey := k, cupsKey := k2 } a r0).log = (provision o a r0).log ∧
    (provision { o with lnsKey := k, cupsKey := k2 } a r0).calls
      = (provision o a r0).calls := by
  by_cases hh : (reconcile o a r0).halted = true
  · have hh2 : (reconcile { o with lnsKey := k, cupsKey := k2 } a r0).halted = true := by
      rw [reconcile_secrets]
      exact hh
    rw [provision_halted _ a r0 hh2, provision_halted o a r0 hh, reconcile_secrets]
    exact ⟨rfl, rfl⟩
  · have hh' : (reconcile o a r0).halted = false := by simpa using hh
    have hh2 : (reconcile { o with lnsKey := k, cupsKey := k2 } a r0).halted = false := by
      rw [reconcile_secrets]
      exact hh'
    rw [provision_not_halted _ a r0 hh2, provision_not_halted o a r0 hh', reconcile_secrets]
    constructor
    · simp only [mkLog]
      rw [provisionRest_results, provisionRest_results, restResults_secrets,
        provisionRest_lns_id, provisionRest_lns_id, provisionRest_cups_id,
        provisionRest_cups_id]
    · rw [provisionRest_calls, provisionRest_calls, restCalls_secrets]

/-- Claim C7: deletion is monotonic — the purge call appears in a
deprovisioning trace only when the soft delete succeeded (by the source's
own success test), the soft-delete call is in the same trace, and no call
of a deprovisioning run can undo a deletion: a registration or update
call is never issued. -/
theorem purge_only_after_delete (o : DeprovOracle) (gateway_id : String) (purge : Bool)
    (r0 : Option GatewayRecord)
    (h : Call.purgeGateway gateway_id ∈ (deprovision_gateway o gateway_id purge r0).calls) :
    (o.deleteOk || o.deleteStatus == 200) = true ∧
    Call.deleteGateway gateway_id ∈ (deprovision_gateway o gateway_id purge r0).calls ∧
    ∀ c ∈ (deprovision_gateway o gateway_id purge r0).calls,
      c.isRegister = false ∧ c.isUpdate = false := by
  by_cases hc : (get_gateway o.checkFault r0).ok = true
  case neg =>
    have hc' : (get_gateway o.checkFault r0).ok = false := by simpa using hc
    simp [deprovision_gateway, hc'] at h
  case pos =>
    by_cases hd : (o.deleteOk || o.deleteStatus == 200) = true
    case neg =>
      have hd' : (o.deleteOk || o.deleteStatus == 200) = false := by simpa using hd
      simp [deprovision_gateway, hc, hd'] at h
    case pos =>
      by_cases hp : purge = true
      case neg =>
        have hp' : purge = false := by simpa using hp
        simp [deprovision_gateway, hc, hd, hp'] at h
      case pos =>
        by_cases hq : (o.purgeOk || o.purgeStatus == 200) = true
        case pos =>
          refine ⟨hd, ?_, ?_⟩
          · simp [deprovision_gateway, hc, hd, hp, hq]
          · intro c hcm
            simp [deprovision_gateway, hc, hd, hp, hq] at hcm
            rcases hcm with rfl | rfl | rfl | rfl <;> exact ⟨rfl, rfl⟩
        case neg =>
          have hq' : (o.purgeOk || o.purgeStatus == 200) = false := by simpa using hq
          refine ⟨hd, ?_, ?_⟩
          · simp [deprovision_gateway, hc, hd, hp, hq']
          · intro c hcm
            simp [deprovision_gateway, hc, hd, hp, hq'] at hcm
            rcases hcm with rfl | rfl | rfl <;> exact ⟨rfl, rfl⟩

/-- Concrete instantiation of monotonic deletion: a full purge run. -/
theorem purge_only_after_delete_witness :
    Call.purgeGateway "fg-gw-a00009ef"
        ∈ (deprovision_gateway okDeprovOracle "fg-gw-a00009ef" true
            (some driftedRecord)).calls ∧
    ((okDeprovOracle.deleteOk || okDeprovOracle.deleteStatus == 200) = true ∧
      Call.deleteGateway "fg-gw-a00009ef"
        ∈ (deprovision_gateway okDeprovOracle "fg-gw-a00009ef" true
            (some driftedRecord)).calls ∧
      ∀ c ∈ (deprovision_gateway okDeprovOracle "fg-gw-a00009ef" true
          (some driftedRecord)).calls,
        c.isRegister = false ∧ c.isUpdate = false) :=
  ⟨by decide,
    purge_only_after_delete okDeprovOracle "fg-gw-a00009ef" true (some driftedRecord)
      (by decide)⟩

/-- Claim C8: a deprovisioning run whose entry check does not find the
gateway aborts immediately as a no-op: the only call issued is the
existence read — no delete, no purge, no verification read — and the
registry is left exactly as it was, so there is nothing to clean up; the
function returns with the early not-found outcome. -/
theorem deprovision_not_found_noop (o : DeprovOracle) (gateway_id : String) (purge : Bool)
    (r0 : Option GatewayRecord) (h : (get_gateway o.checkFault r0).ok = false) :
    deprovision_gateway o gateway_id purge r0 =
      ⟨false, [Call.getGateway gateway_id], r0⟩ := by
  simp [deprovision_gateway, h]

/-- Concrete instantiation of the not-found no-op. -/
theorem deprovision_not_found_noop_witness :
    (get_gateway okDeprovOracle.checkFault none).ok = false ∧
    deprovision_gateway okDeprovOracle "fg-gw-a00009ef" false none =
      ⟨false, [Call.getGateway "fg-gw-a00009ef"], none⟩ :=
  ⟨rfl, deprovision_not_found_noop okDeprovOracle "fg-gw-a00009ef" false none rfl⟩

/-- Claim C9: whenever a run reaches the verification step (registration
did not hard-stop it), that step is recorded as a success exactly when the
radio-plane query is ok or answers 404 — not-yet-connected is a success,
any other non-ok response a failure; it is the unique step of that name in
the emitted summary, and the verification outcome has no effect at all on
the final identity-registry state: nothing already committed is undone. -/
theorem verify_step_semantics (o : Oracle) (a : Args) (r0 : Option GatewayRecord)
    (h : (reconcile o a r0).halted = false) :
    verifyStep o ∈ (provision o a r0).log.steps ∧
    (verifyStep o).success = (o.statsOk || o.statsStatus == 404) ∧
    (∀ s ∈ (provision o a r0).log.steps, s.step = "verify_nam1" → s = verifyStep o) ∧
    (∀ b n e,
      (provision { o with statsOk := b, statsStatus := n, statsErrBody := e } a r0).registry
        = (provision o a r0).registry) := by
  refine ⟨?_, verifyStep_success o, ?_, ?_⟩
  · rw [provision_not_halted o a r0 h]
    simp [mkLog, provisionRest_results, restResults]
  · intro s hs hname
    rw [provision_not_halted o a r0 h] at hs
    simp only [mkLog] at hs
    rw [provisionRest_results] at hs
    simp only [restResults, List.append_assoc, List.mem_append] at hs
    rcases hs with hs | hs | hs | hs | hs | hs
    · rcases reconcile_step_names o a r0 s hs with h1 | h1 | h1 <;>
        rw [h1] at hname <;> exact absurd hname (by decide)
    · rw [locationResults_names o a s hs] at hname
      exact absurd hname (by decide)
    · rw [lnsResults_names o a s hs] at hname
      exact absurd hname (by decide)
    · rw [cupsResults_names o a s hs] at hname
      exact absurd hname (by decide)
    · simp at hs
      exact hs
    · rw [dbResults_names o a s hs] at hname
      exact absurd hname (by decide)
  · intro b n e
    have h2 : (reconcile { o with statsOk := b, statsStatus := n, statsErrBody := e }
        a r0).halted = false := by
      rw [reconcile_stats]
      exact h
    rw [provision_not_halted _ a r0 h2, provision_not_halted o a r0 h, reconcile_stats]
    show (provisionRest _ a _).registry = (provisionRest o a _).registry
    rw [provisionRest_registry_eq_loc, provisionRest_registry_eq_loc, stepLocation_stats]

/-- Concrete instantiation of the verification-step semantics, including
independence of the final registry from a failing radio-plane answer. -/
theorem verify_step_semantics_witness :
    (reconcile okOracle sampleArgs none).halted = false ∧
    verifyStep okOracle ∈ (provision okOracle sampleArgs none).log.steps ∧
    (verifyStep okOracle).success = (okOracle.statsOk || okOracle.statsStatus == 404) ∧
    (provision
        { okOracle with statsOk := false, statsStatus := 503, statsErrBody := "unavailable" }
        sampleArgs none).registry
      = (provision okOracle sampleArgs none).registry :=
  ⟨by decide,
    (verify_step_semantics okOracle sampleArgs none (by decide)).1,
    (verify_step_semantics okOracle sampleArgs none (by decide)).2.1,
    (verify_step_semantics okOracle sampleArgs none (by decide)).2.2.2 false 503 "unavailable"⟩

/-- Claim C10: with no gateway id supplied, the interactive, batch-JSON
and direct-CLI entry points all derive the same default id — the literal
`fg-gw-` followed by the last eight characters of the gateway EUI,
lower-cased. -/
theorem default_gateway_id_agree (eui : String) :
    interactiveGatewayId "" eui = defaultGatewayIdSpec eui ∧
    batchGatewayId none eui = defaultGatewayIdSpec eui ∧
    mainGatewayId none eui = defaultGatewayIdSpec eui := by
  refine ⟨?_, rfl, rfl⟩
  simp [interactiveGatewayId, defaultGatewayIdSpec]

end FrostGuard
